import Mathlib

/-!
Shallow embedding of `src/pydata_sphinx_theme/__init__.py` (pydata-sphinx-theme).

Python values occurring in theme options and render contexts are modelled by a
JSON-like `Value` type; Python `dict`s become association lists with
first-match lookup and in-place update (matching CPython dict semantics:
assigning to an existing key keeps its position, a new key is appended).
The two functions under study, `update_config` and
`update_and_remove_templates`, are translated block by block into step
functions threaded through an explicit state; exceptions become an `err`
field that, once set, makes every later step a no-op (Python unwinding).
External effects (HTTP fetch / local file read of the switcher manifest,
template rendering) are oracle functions supplied in the `App` structure.
-/

namespace PST

/-- Python values, as they occur in theme options / render contexts. -/
inductive Value where
  | none
  | bool (b : Bool)
  | int (n : Int)
  | str (s : String)
  | list (xs : List Value)
  | dict (entries : List (String × Value))

abbrev Dict := List (String × Value)

/-- `d.get(k)`: first binding wins (Python dicts have unique keys). -/
def dget : Dict → String → Option Value
  | [], _ => Option.none
  | (k, v) :: rest, key => if k = key then some v else dget rest key

/-- `d.get(k, default)`. -/
def dgetD (d : Dict) (key : String) (dflt : Value) : Value :=
  (dget d key).getD dflt

/-- `d[k] = v`: replace in place if the key exists, else append. -/
def dset : Dict → String → Value → Dict
  | [], key, v => [(key, v)]
  | (k, w) :: rest, key, v =>
      if k = key then (k, v) :: rest else (k, w) :: dset rest key v

/-- Python truthiness of a `Value`. -/
def truthy : Value → Bool
  | .none => false
  | .bool b => b
  | .int n => n != 0
  | .str s => s != ""
  | .list xs => !xs.isEmpty
  | .dict es => !es.isEmpty

/-- The name `type(v)` would print for each modelled value. -/
def typeName : Value → String
  | .none => "NoneType"
  | .bool _ => "bool"
  | .int _ => "int"
  | .str _ => "str"
  | .list _ => "list"
  | .dict _ => "dict"

def isDict : Value → Bool
  | .dict _ => true
  | _ => false

def isList : Value → Bool
  | .list _ => true
  | _ => false

def isNone : Value → Bool
  | .none => true
  | _ => false

/-- Python `v == s` for a string literal `s` (False on any non-str value). -/
def vIsStr (name : String) : Value → Bool
  | .str s => s = name
  | _ => false

/-! ## External effects of `update_config`

Reading the switcher manifest (`requests.get` / `Path(...).read_text()`
followed by `json.loads`) is an external effect; it is modelled by an oracle
`fetch : String → FetchResult` stored in the `App`.  A successful fetch
yields the parsed JSON array, each record modelled as a JSON object (the
shape the manifest documentation prescribes and the only shape the claims
exercise).  A failed fetch yields the exception that was raised; the
constructors cover the exception classes the source distinguishes, plus
`otherError` for any exception outside them (e.g. `requests` timeouts or
`PermissionError`) and `jsonDecodeError` for `json.loads` failing on
fetched content. -/

inductive ReadErr where
  | connectionError
  | httpError
  | retryError
  | fileNotFound
  | jsonDecodeError
  | otherError
deriving DecidableEq, Repr

inductive FetchResult where
  | success (records : List Dict)
  | failure (e : ReadErr)

/-- Warnings emitted through `logger.warning`, one constructor per call
site in `update_config`. -/
inductive Warning where
  | logoTextDeprecated
  | footerItemsDeprecated
  | faviconsDeprecated
  | navigationWithKeysDefault
  | switcherUnreachable (url : String)
  | switcherMalformed (url : String)
deriving DecidableEq, Repr

/-- Exceptions raised by the embedded functions.  Each constructor records
the Python exception class and the datum its message carries (the missing
key for `KeyError`, the offending `type(...)` name for the type-shaped
errors). -/
inductive Err where
  | extensionError (offendingType : String)
  | keyError (key : String)
  | valueError (offendingType : String)
  | typeError (offendingType : String)
  | attrError (offendingType : String)
  | readError (e : ReadErr)
deriving DecidableEq, Repr

/-- The slice of the Sphinx `app` that `update_config` reads. -/
structure App where
  theme_options : Dict
  permalinks_provided : Bool
  html_permalinks_icon : Value
  fontawesome_provided : Bool
  fontawesome_included : Bool
  extensions : List String
  fetch : String → FetchResult

/-- The state threaded through the blocks of `update_config`: the theme
options being mutated, the warnings logged so far, the exception in
flight (if any), and the other `app`-level effects the function performs. -/
structure St where
  err : Option Err
  opts : Dict
  warnings : List Warning
  permalinksIcon : Value
  jsFiles : List String
  fontawesomeIncluded : Bool
  didFetch : Bool

def initSt (app : App) : St :=
  { err := Option.none, opts := app.theme_options, warnings := [],
    permalinksIcon := app.html_permalinks_icon, jsFiles := [],
    fontawesomeIncluded := app.fontawesome_included, didFetch := false }

/-- `s.split(c)` for a one-character separator, over character lists
(CPython `str.split(sep)`; splitting the empty string yields `[""]`). -/
def pySplit (c : Char) : List Char → List (List Char)
  | [] => [[]]
  | x :: xs =>
      match pySplit c xs with
      | [] => if x = c then [[], []] else [[x]]
      | y :: ys => if x = c then [] :: y :: ys else (x :: y) :: ys

/-- CPython `str.isspace` on the characters `str.strip()` removes. -/
def pySpace (c : Char) : Bool :=
  c = ' ' || c = '\t' || c = '\n' || c = '\x0d' || c = '\x0b' || c = '\x0c'

/-- `s.strip()` over character lists. -/
def pyStrip (l : List Char) : List Char :=
  ((l.dropWhile pySpace).reverse.dropWhile pySpace).reverse

/-- `s.endswith(suffix)`. -/
def pyEndsWith (s suffix : String) : Bool :=
  suffix.toList.reverse.isPrefixOf s.toList.reverse

/-- `needle in hay` on strings (substring containment). -/
def pyInStr (needle hay : String) : Bool :=
  go needle.toList hay.toList
where
  go (n : List Char) : List Char → Bool
    | [] => n.isEmpty
    | c :: rest => n.isPrefixOf (c :: rest) || go n rest

/-- `urlparse(s).scheme`: the text before the first `:`, lowercased, when it
is a well-formed scheme (letter first, then letters/digits/`+`/`-`/`.`);
empty otherwise. -/
def urlScheme (s : String) : String :=
  match pySplit ':' s.toList with
  | [] => ""
  | [_] => ""
  | head :: _ =>
      if !head.isEmpty && (head.headD ' ').isAlpha
          && head.all (fun c => c.isAlphanum || c = '+' || c = '-' || c = '.')
      then String.mk (head.map Char.toLower) else ""

/-- Lines 31-37: deprecated `logo_text` is folded into `logo["text"]` with
one warning.  Subscript-assigning into a non-dict `logo` value is a
`TypeError` in Python. -/
def step_logo_text (st : St) : St :=
  if st.err.isSome then st else
  if truthy (dgetD st.opts "logo_text" .none) then
    match dgetD st.opts "logo" (.dict []) with
    | .dict es =>
        { st with
          opts := dset st.opts "logo"
            (.dict (dset es "text" (dgetD st.opts "logo_text" .none))),
          warnings := st.warnings ++ [.logoTextDeprecated] }
    | v => { st with err := some (.typeError (typeName v)) }
  else st

/-- Lines 40-44: deprecated `footer_items` is copied to `footer_start` with
one warning. -/
def step_footer_items (st : St) : St :=
  if st.err.isSome then st else
  if truthy (dgetD st.opts "footer_items" .none) then
    { st with
      opts := dset st.opts "footer_start" (dgetD st.opts "footer_items" .none),
      warnings := st.warnings ++ [.footerItemsDeprecated] }
  else st

/-- Lines 47-51: deprecated `favicons` only warns. -/
def step_favicons (st : St) : St :=
  if st.err.isSome then st else
  if truthy (dgetD st.opts "favicons" .none) then
    { st with warnings := st.warnings ++ [.faviconsDeprecated] }
  else st

/-- Lines 54-63: a missing (or `None`) `navigation_with_keys` warns and is
defaulted to `False`. -/
def step_navigation (st : St) : St :=
  if st.err.isSome then st else
  if isNone (dgetD st.opts "navigation_with_keys" .none) then
    { st with
      opts := dset st.opts "navigation_with_keys" (.bool false),
      warnings := st.warnings ++ [.navigationWithKeysDefault] }
  else st

/-- Lines 66-70: a present non-list `icon_links` raises `ExtensionError`;
the message interpolates `type(theme_options.get('icon_links'))`. -/
def step_icon_links_check (st : St) : St :=
  if st.err.isSome then st else
  if !isList (dgetD st.opts "icon_links" (.list [])) then
    { st with err := some (.extensionError (typeName (dgetD st.opts "icon_links" .none))) }
  else st

/-- Lines 73-74: default `html_permalinks_icon` to `#` unless user-set. -/
def step_permalinks (app : App) (st : St) : St :=
  if st.err.isSome then st else
  if !app.permalinks_provided then { st with permalinksIcon := .str "#" } else st

/-- Lines 77-118: switcher validation.  Requires `switcher` to be a dict and
`check_switcher` truthy (default `True`); then the compulsory sub-keys are
subscripted (raising `KeyError` when absent), the manifest is fetched (HTTP
for `http`/`https` schemes, local file otherwise, each with its own caught
exception classes), and the fetched array is checked for records missing
`url` or `version`. -/
def step_switcher (app : App) (st : St) : St :=
  if st.err.isSome then st else
  if isDict (dgetD st.opts "switcher" .none)
      && truthy (dgetD st.opts "check_switcher" (.bool true)) then
    match dgetD st.opts "switcher" .none with
    | .dict sw =>
        match dget sw "json_url" with
        | Option.none => { st with err := some (.keyError "json_url") }
        | some ju =>
            match dget sw "version_match" with
            | Option.none => { st with err := some (.keyError "version_match") }
            | some _ =>
                match ju with
                | .str url =>
                    let st := { st with didFetch := true }
                    let isHttp := urlScheme url = "http" || urlScheme url = "https"
                    match app.fetch url with
                    | .failure e =>
                        let caught :=
                          if isHttp then
                            e = .connectionError || e = .httpError || e = .retryError
                          else e = .fileNotFound
                        if caught then
                          { st with warnings := st.warnings ++ [.switcherUnreachable url] }
                        else { st with err := some (.readError e) }
                    | .success records =>
                        let missing_url := records.any (fun r => (dget r "url").isNone)
                        let missing_version := records.any (fun r => (dget r "version").isNone)
                        if missing_url || missing_version then
                          { st with warnings := st.warnings ++ [.switcherMalformed url] }
                        else st
                -- a non-str `json_url` makes `urlparse` raise
                | v => { st with err := some (.attrError (typeName v)) }
    | _ => st

  else st

/-- Lines 121-149: analytics scripts.  `analytics.get(...)` on a truthy
non-dict raises `AttributeError`. -/
def step_analytics (st : St) : St :=
  if st.err.isSome then st else
  let analytics := dgetD st.opts "analytics" (.dict [])
  if truthy analytics then
    match analytics with
    | .dict a =>
        let st1 :=
          if truthy (dgetD a "plausible_analytics_domain" .none)
              && truthy (dgetD a "plausible_analytics_url" .none) then
            { st with jsFiles := st.jsFiles ++ ["plausible"] }
          else st
        if truthy (dgetD a "google_analytics_id" .none) then
          { st1 with jsFiles := st1.jsFiles ++ ["gtag-src", "gtag-inline"] }
        else st1
    | v => { st with err := some (.attrError (typeName v)) }
  else st

/-- Lines 152-154: default `fontawesome_included` when ablog is loaded. -/
def step_ablog (app : App) (st : St) : St :=
  if st.err.isSome then st else
  if app.extensions.contains "ablog" && !app.fontawesome_provided then
    { st with fontawesomeIncluded := true }
  else st

/-- Line 157-162: the icon-link shortcut table, in source order. -/
def shortcuts : List (String × String × String) :=
  [("twitter_url", "fa-brands fa-square-twitter", "Twitter"),
   ("bitbucket_url", "fa-brands fa-bitbucket", "Bitbucket"),
   ("gitlab_url", "fa-brands fa-square-gitlab", "GitLab"),
   ("github_url", "fa-brands fa-square-github", "GitHub")]

/-- The entry `insert`ed for one shortcut. -/
def iconEntry (url : Value) (icon name : String) : Value :=
  .dict [("url", url), ("icon", .str icon), ("name", .str name),
         ("type", .str "fontawesome")]

/-- Lines 165-178: each truthy shortcut option `insert(0, ...)`s its entry
into the `icon_links` list, walking the table in order; the result is stored
back.  (`insert` on a non-list would raise `AttributeError`, but a present
non-list `icon_links` has already raised in `step_icon_links_check`.) -/
def step_shortcuts (st : St) : St :=
  if st.err.isSome then st else
  match dgetD st.opts "icon_links" (.list []) with
  | .list xs =>
      let links := shortcuts.foldl
        (fun acc s =>
          if truthy (dgetD st.opts s.1 .none) then
            iconEntry (dgetD st.opts s.1 .none) s.2.1 s.2.2 :: acc
          else acc)
        xs
      { st with opts := dset st.opts "icon_links" (.list links) }
  | v => { st with err := some (.attrError (typeName v)) }

/-- Lines 181-187: a falsy `logo` becomes `{}`; a truthy non-dict raises
`ValueError` naming its type; the result is stored back. -/
def step_logo (st : St) : St :=
  if st.err.isSome then st else
  let theme_logo := dgetD st.opts "logo" .none
  let theme_logo := if truthy theme_logo then theme_logo else .dict []
  match theme_logo with
  | .dict es => { st with opts := dset st.opts "logo" (.dict es) }
  | v => { st with err := some (.valueError (typeName v)) }

/-- `update_config` (lines 22-187): the blocks in source order. -/
def update_config (app : App) : St :=
  step_logo (step_shortcuts (step_ablog app (step_analytics (step_switcher app
    (step_permalinks app (step_icon_links_check (step_navigation (step_favicons
      (step_footer_items (step_logo_text (initSt app)))))))))))

/-! ## `update_and_remove_templates` -/

def theme_version : String := "0.14.2dev0"

/-- Index of the last occurrence of `c` in `l`. -/
def rfindIdx (c : Char) (l : List Char) : Option Nat :=
  match l.reverse.findIdx? (· = c) with
  | Option.none => Option.none
  | some i => some (l.length - 1 - i)

/-- `os.path.splitext(s)[1]` (posix): the part from the last dot, provided
that dot lies after the last `/` and some non-dot character stands strictly
between them (leading dots of a basename are not an extension). -/
def splitextExt (s : String) : String :=
  let l := s.toList
  let sepIdx : Int := match rfindIdx '/' l with | some i => (i : Int) | Option.none => -1
  let dotIdx : Int := match rfindIdx '.' l with | some i => (i : Int) | Option.none => -1
  if sepIdx < dotIdx then
    let nameStart := (sepIdx + 1).toNat
    let dotN := dotIdx.toNat
    if (List.range (dotN - nameStart)).any (fun k => l.getD (nameStart + k) '.' ≠ '.')
    then String.mk (l.drop dotN) else ""
  else ""

/-- `PurePath(s).suffix`: the last dot of the final path component counts
only when it is neither the component's first nor last character. -/
def pathSuffix (s : String) : String :=
  let l := (pySplit '/' s.toList).getLastD []
  match rfindIdx '.' l with
  | some i => if 0 < i && i + 1 < l.length then String.mk (l.drop i) else ""
  | Option.none => ""

/-- `str.strip(".")`. -/
def stripDots (s : String) : String :=
  String.mk (((s.toList.dropWhile (· = '.')).reverse.dropWhile (· = '.')).reverse)

/-- Line 228: template names whose emptiness is never checked. -/
def SKIP_EMPTY_TEMPLATE_CHECKS : List String := ["sidebar-nav-bs.html", "navbar-nav.html"]

/-- Lines 195-210: the context keys treated as template sections. -/
def template_sections : List String :=
  ["theme_navbar_start", "theme_navbar_center", "theme_navbar_persistent",
   "theme_navbar_end", "theme_article_header_start", "theme_article_header_end",
   "theme_article_footer_items", "theme_content_footer_items",
   "theme_footer_start", "theme_footer_center", "theme_footer_end",
   "theme_secondary_sidebar_items", "theme_primary_sidebar_end", "sidebars"]

/-- The slice of the Sphinx `app` that `update_and_remove_templates` uses:
`app.builder.templates.render` as an oracle. -/
structure PageApp where
  render : String → Dict → String

/-- State threaded through `update_and_remove_templates`: the render
context being mutated, the CSS files and the number of JS snippets added
through the `app`, and the exception in flight (if any). -/
structure PageSt where
  err : Option Err
  ctx : Dict
  cssAdded : List (String × Dict)
  jsAdded : Nat

def strOf : Value → Except Err String
  | .str s => .ok s
  | v => .error (.typeError (typeName v))

/-- Lines 225-234, `_remove_empty_templates`: keep a template when its name
ends in a skip-listed name, or when rendering it produces more than
whitespace. -/
def keepTemplate (pa : PageApp) (ctx : Dict) (tname : String) : Bool :=
  if SKIP_EMPTY_TEMPLATE_CHECKS.any (fun temp => pyEndsWith tname temp) then true
  else !(pyStrip (pa.render tname ctx).toList).isEmpty

/-- Lines 211-236, one iteration: a truthy section value is split on `,`
with entries stripped if it is a string, each entry without an extension
gets `.html` appended, and entries rendering empty are filtered out.
`os.path.splitext` on a non-str entry raises `TypeError`, as does
iterating a non-str non-list section value. -/
def processSection (pa : PageApp) (st : PageSt) (section_ : String) : PageSt :=
  if st.err.isSome then st else
  let v := dgetD st.ctx section_ .none
  if !truthy v then st else
  let entries : Except Err (List String) :=
    match v with
    | .str s => .ok ((pySplit ',' s.toList).map (fun ii => String.mk (pyStrip ii)))
    | .list xs => xs.mapM strOf
    | w => .error (.typeError (typeName w))
  match entries with
  | .error e => { st with err := some e }
  | .ok strs =>
      let withExt := strs.map (fun t => if splitextExt t = "" then t ++ ".html" else t)
      let ctx1 := dset st.ctx section_ (.list (withExt.map Value.str))
      let kept := withExt.filter (keepTemplate pa ctx1)
      { st with ctx := dset ctx1 section_ (.list (kept.map Value.str)) }

/-- Lines 238-244: drop the first occurrence of the theme stylesheet from
`css_files`. -/
def theme_css_name : String := "_static/styles/pydata-sphinx-theme.css"

def removeFirstStr (name : String) : List Value → List Value
  | [] => []
  | y :: ys => if vIsStr name y then ys else y :: removeFirstStr name ys

def step_css_dedup (st : PageSt) : PageSt :=
  if st.err.isSome then st else
  match dget st.ctx "css_files" with
  | Option.none => st
  | some (.list xs) =>
      if xs.any (vIsStr theme_css_name) then
        { st with ctx := dset st.ctx "css_files" (.list (removeFirstStr theme_css_name xs)) }
      else st
  -- `in` on a str is a substring test; `.remove` on a str raises
  | some (.str s) =>
      if pyInStr theme_css_name s then
        { st with err := some (.attrError "str") }
      else st
  | some v => { st with err := some (.typeError (typeName v)) }

/-- Lines 246-257: one favicon: index `href` (a `KeyError` when absent),
derive the icon type from the path suffix, and register a CSS file. -/
def addFavicon (st : PageSt) (favicon : Value) : PageSt :=
  if st.err.isSome then st else
  match favicon with
  | .dict f =>
      match dget f "href" with
      | Option.none => { st with err := some (.keyError "href") }
      | some (.str href) =>
          let icon_type := stripDots (pathSuffix href)
          let opts :=
            [("rel", dgetD f "rel" (.str "icon")),
             ("sizes", dgetD f "sizes" (.str "16x16")),
             ("type", Value.str ("image/" ++ icon_type))]
          let opts :=
            match dget f "color" with
            | some c => opts ++ [("color", c)]
            | Option.none => opts
          { st with cssAdded := st.cssAdded ++ [(href, opts)] }
      | some v => { st with err := some (.typeError (typeName v)) }
  | v => { st with err := some (.typeError (typeName v)) }

def step_favicons_ctx (st : PageSt) : PageSt :=
  if st.err.isSome then st else
  match dgetD st.ctx "theme_favicons" (.list []) with
  | .list xs => xs.foldl addFavicon st
  | .str s => if s = "" then st else { st with err := some (.typeError "str") }
  | .dict es => if es.isEmpty then st else { st with err := some (.typeError "str") }
  | v => { st with err := some (.typeError (typeName v)) }

/-- Lines 259-274: the pagename snippet is always added; the switcher
snippet requires a dict `theme_switcher` whose `json_url` and
`version_match` are subscripted (raising `KeyError` when absent), and
interpolates `context["theme_show_version_warning_banner"]`. -/
def step_page_js (st : PageSt) : PageSt :=
  if st.err.isSome then st else
  let st := { st with jsAdded := st.jsAdded + 1 }
  match dgetD st.ctx "theme_switcher" .none with
  | .dict sw =>
      match dget sw "json_url" with
      | Option.none => { st with err := some (.keyError "json_url") }
      | some _ =>
          match dget sw "version_match" with
          | Option.none => { st with err := some (.keyError "version_match") }
          | some _ =>
              match dget st.ctx "theme_show_version_warning_banner" with
              | Option.none =>
                  { st with err := some (.keyError "theme_show_version_warning_banner") }
              | some _ => { st with jsAdded := st.jsAdded + 1 }
  | _ => st

/-- Line 277: record the theme version in the context. -/
def step_theme_version (st : PageSt) : PageSt :=
  if st.err.isSome then st else
  { st with ctx := dset st.ctx "theme_version" (.str theme_version) }

/-- `update_and_remove_templates` (lines 190-277): section normalization
over every template section, CSS dedup, favicons, JS snippets, version. -/
def update_and_remove_templates (pa : PageApp) (ctx : Dict) : PageSt :=
  let st0 : PageSt := { err := Option.none, ctx := ctx, cssAdded := [], jsAdded := 0 }
  let st1 := template_sections.foldl (processSection pa) st0
  step_theme_version (step_page_js (step_favicons_ctx (step_css_dedup st1)))

/-! ## Simp lemmas: evaluating the Python value primitives -/

@[simp] lemma truthy_none : truthy Value.none = false := rfl
@[simp] lemma truthy_bool (b : Bool) : truthy (.bool b) = b := rfl
@[simp] lemma truthy_int (n : Int) : truthy (.int n) = (n != 0) := rfl
@[simp] lemma truthy_str (s : String) : truthy (.str s) = (s != "") := rfl
@[simp] lemma truthy_list (xs : List Value) : truthy (.list xs) = !xs.isEmpty := rfl
@[simp] lemma truthy_dict (es : List (String × Value)) : truthy (.dict es) = !es.isEmpty := rfl

@[simp] lemma isNone_none : isNone Value.none = true := rfl
@[simp] lemma isNone_bool (b : Bool) : isNone (.bool b) = false := rfl
@[simp] lemma isNone_str (s : String) : isNone (.str s) = false := rfl
@[simp] lemma isNone_dict (es : List (String × Value)) : isNone (.dict es) = false := rfl

@[simp] lemma isDict_none : isDict Value.none = false := rfl
@[simp] lemma isDict_bool (b : Bool) : isDict (.bool b) = false := rfl
@[simp] lemma isDict_int (n : Int) : isDict (.int n) = false := rfl
@[simp] lemma isDict_str (s : String) : isDict (.str s) = false := rfl
@[simp] lemma isDict_list (xs : List Value) : isDict (.list xs) = false := rfl
@[simp] lemma isDict_dict (es : List (String × Value)) : isDict (.dict es) = true := rfl

@[simp] lemma isList_list (xs : List Value) : isList (.list xs) = true := rfl
@[simp] lemma isList_dict (es : List (String × Value)) : isList (.dict es) = false := rfl

@[simp] lemma dget_nil (key : String) : dget [] key = Option.none := rfl
@[simp] lemma dget_cons (k key : String) (v : Value) (rest : Dict) :
    dget ((k, v) :: rest) key = if k = key then some v else dget rest key := rfl
@[simp] lemma dset_nil (key : String) (v : Value) : dset [] key v = [(key, v)] := rfl
@[simp] lemma dset_cons (k key : String) (w v : Value) (rest : Dict) :
    dset ((k, w) :: rest) key v =
      if k = key then (k, v) :: rest else (k, w) :: dset rest key v := rfl
@[simp] lemma dgetD_eq (d : Dict) (key : String) (dflt : Value) :
    dgetD d key dflt = (dget d key).getD dflt := rfl

/-- `dget` after `dset` at the same key. -/
lemma dget_dset_self (d : Dict) (key : String) (v : Value) :
    dget (dset d key v) key = some v := by
  induction d with
  | nil => simp
  | cons p rest ih =>
      obtain ⟨k, w⟩ := p
      by_cases h : k = key <;> simp [h, ih]

/-- A Sphinx app with the given theme options and manifest oracle, and no
other user configuration; the baseline the option-handling claims run on. -/
def mkApp (opts : Dict) (fetch : String → FetchResult) : App :=
  { theme_options := opts, permalinks_provided := false, html_permalinks_icon := .none,
    fontawesome_provided := false, fontawesome_included := false,
    extensions := [], fetch := fetch }

/-- An exception already in flight skips the logo block. -/
lemma step_logo_of_err (st : St) (e : Err) (h : st.err = some e) : step_logo st = st := by
  unfold step_logo
  rw [h]
  simp

/-- Running the logo block either stores a dict under `logo` and keeps the
run clean, or raises a `ValueError`. -/
lemma step_logo_cases (st : St) (hnone : st.err = Option.none) :
    (∃ es, dget (step_logo st).opts "logo" = some (Value.dict es)
        ∧ (step_logo st).err = Option.none)
    ∨ (∃ s, (step_logo st).err = some (Err.valueError s)) := by
  unfold step_logo
  rw [hnone]
  simp only [Option.isSome_none, Bool.false_eq_true, if_false, dgetD_eq]
  set v := (dget st.opts "logo").getD Value.none with hv
  clear_value v
  rcases v with _ | b | n | s | xs | es
  · exact Or.inl ⟨[], by simp [dget_dset_self], by simp⟩
  · cases b
    · exact Or.inl ⟨[], by simp [dget_dset_self], by simp⟩
    · exact Or.inr ⟨"bool", by simp [typeName]⟩
  · by_cases hn : n = 0
    · exact Or.inl ⟨[], by simp [hn, dget_dset_self], by simp [hn]⟩
    · exact Or.inr ⟨"int", by simp [hn, typeName]⟩
  · by_cases hs : s = ""
    · exact Or.inl ⟨[], by simp [hs, dget_dset_self], by simp [hs]⟩
    · exact Or.inr ⟨"str", by simp [hs, typeName]⟩
  · rcases xs with _ | ⟨x, xs⟩
    · exact Or.inl ⟨[], by simp [dget_dset_self], by simp⟩
    · exact Or.inr ⟨"list", by simp [typeName]⟩
  · by_cases he : es.isEmpty = true
    · exact Or.inl ⟨[], by simp [he, dget_dset_self], by simp [he]⟩
    · exact Or.inl ⟨es, by simp [he, dget_dset_self], by simp [he]⟩

/-- When no template ever renders to pure whitespace, the emptiness filter
keeps everything. -/
lemma keepTemplate_true (pa : PageApp)
    (hrender : ∀ t c, (pyStrip (pa.render t c).toList).isEmpty = false) :
    ∀ (c : Dict) (t : String), keepTemplate pa c t = true := by
  intro c t
  unfold keepTemplate
  split
  · rfl
  · have h2 := hrender t c
    cases hh : pyStrip (pa.render t c).toList with
    | nil => rw [hh] at h2; simp at h2
    | cons a l => simp

lemma filter_keepTemplate (pa : PageApp)
    (hrender : ∀ t c, (pyStrip (pa.render t c).toList).isEmpty = false) :
    ∀ (l : List String) (c : Dict), l.filter (keepTemplate pa c) = l := by
  intro l c
  exact List.filter_eq_self.mpr (fun a _ => keepTemplate_true pa hrender c a)

/-- `list.remove` drops exactly the first matching occurrence. -/
lemma removeFirstStr_append (name : String) (l1 l2 : List Value)
    (h : ∀ y ∈ l1, vIsStr name y = false) :
    removeFirstStr name (l1 ++ .str name :: l2) = l1 ++ l2 := by
  induction l1 with
  | nil => simp [removeFirstStr, vIsStr]
  | cons y ys ih =>
      simp only [List.cons_append, removeFirstStr]
      rw [h y (by simp)]
      simp [ih (fun z hz => h z (by simp [hz]))]

/-! ## Claims -/

/-- C1: for every truthy deprecated option supplied (`logo_text`,
`footer_items`, `favicons`), `update_config` produces the equivalent
new-shaped option (`logo_text` becomes `logo["text"]`, `footer_items`
becomes `footer_start`), finishes without error, and emits exactly one
deprecation warning per deprecated option used. -/
theorem update_config_deprecated_options_normalized
    (ltv fiv fav : Value) (fetch : String → FetchResult)
    (hl : truthy ltv = true) (hf : truthy fiv = true) (hv : truthy fav = true) :
    (update_config (mkApp [("logo_text", ltv), ("footer_items", fiv), ("favicons", fav)] fetch)).err = Option.none
    ∧ dget (update_config (mkApp [("logo_text", ltv), ("footer_items", fiv), ("favicons", fav)] fetch)).opts "logo"
        = some (.dict [("text", ltv)])
    ∧ dget (update_config (mkApp [("logo_text", ltv), ("footer_items", fiv), ("favicons", fav)] fetch)).opts "footer_start"
        = some fiv
    ∧ (update_config (mkApp [("logo_text", ltv), ("footer_items", fiv), ("favicons", fav)] fetch)).warnings.count .logoTextDeprecated = 1
    ∧ (update_config (mkApp [("logo_text", ltv), ("footer_items", fiv), ("favicons", fav)] fetch)).warnings.count .footerItemsDeprecated = 1
    ∧ (update_config (mkApp [("logo_text", ltv), ("footer_items", fiv), ("favicons", fav)] fetch)).warnings.count .faviconsDeprecated = 1 := by
  simp [update_config, mkApp, initSt, step_logo_text, step_footer_items, step_favicons,
        step_navigation, step_icon_links_check, step_permalinks, step_switcher,
        step_analytics, step_ablog, step_shortcuts, step_logo, shortcuts,
        hl, hf, hv]

/-- Witness for C1 at `logo_text="My"`, `footer_items="f"`, `favicons=True`. -/
theorem update_config_deprecated_options_normalized_witness :
    (update_config (mkApp [("logo_text", .str "My"), ("footer_items", .str "f"),
        ("favicons", .bool true)] (fun _ => .failure .otherError))).err = Option.none
    ∧ dget (update_config (mkApp [("logo_text", .str "My"), ("footer_items", .str "f"),
        ("favicons", .bool true)] (fun _ => .failure .otherError))).opts "logo"
        = some (.dict [("text", .str "My")])
    ∧ (update_config (mkApp [("logo_text", .str "My"), ("footer_items", .str "f"),
        ("favicons", .bool true)] (fun _ => .failure .otherError))).warnings.count .logoTextDeprecated = 1 := by
  have h := update_config_deprecated_options_normalized (.str "My") (.str "f") (.bool true)
    (fun _ => .failure .otherError) (by decide) (by decide) (by decide)
  exact ⟨h.1, h.2.1, h.2.2.2.1⟩

/-- C2: a dict `switcher` option missing the compulsory `json_url`
(resp. `version_match`) sub-key makes `update_config` raise a `KeyError`
naming the absent sub-key, aborting the run. -/
theorem update_config_switcher_missing_subkey_raises
    (sw : Dict) (fetch : String → FetchResult) :
    (dget sw "json_url" = Option.none →
      (update_config (mkApp [("switcher", .dict sw)] fetch)).err = some (.keyError "json_url"))
    ∧ (dget sw "json_url" ≠ Option.none → dget sw "version_match" = Option.none →
      (update_config (mkApp [("switcher", .dict sw)] fetch)).err = some (.keyError "version_match")) := by
  constructor
  · intro h
    simp [update_config, mkApp, initSt, step_logo_text, step_footer_items, step_favicons,
          step_navigation, step_icon_links_check, step_permalinks, step_switcher,
          step_analytics, step_ablog, step_shortcuts, step_logo, shortcuts, h]
  · intro h1 h2
    rcases hju : dget sw "json_url" with _ | ju
    · exact absurd hju h1
    · simp [update_config, mkApp, initSt, step_logo_text, step_footer_items, step_favicons,
            step_navigation, step_icon_links_check, step_permalinks, step_switcher,
            step_analytics, step_ablog, step_shortcuts, step_logo, shortcuts, hju, h2]

/-- Witness for C2: `switcher` with only `version_match`, then only
`json_url`. -/
theorem update_config_switcher_missing_subkey_raises_witness :
    (update_config (mkApp [("switcher", .dict [("version_match", .str "v1")])]
        (fun _ => .failure .otherError))).err = some (.keyError "json_url")
    ∧ (update_config (mkApp [("switcher", .dict [("json_url", .str "u")])]
        (fun _ => .failure .otherError))).err = some (.keyError "version_match") :=
  ⟨(update_config_switcher_missing_subkey_raises [("version_match", .str "v1")]
      (fun _ => .failure .otherError)).1 rfl,
   (update_config_switcher_missing_subkey_raises [("json_url", .str "u")]
      (fun _ => .failure .otherError)).2 (by simp) rfl⟩

/-- C3: with a dict `switcher` carrying both compulsory sub-keys and a
successfully fetched manifest array, `update_config` emits no switcher
warning when every record has both `url` and `version`; when some record
misses either key it emits exactly one malformed-manifest warning and
still finishes without raising. -/
theorem update_config_switcher_manifest_validation
    (sw : Dict) (url : String) (records : List Dict)
    (hju : dget sw "json_url" = some (.str url))
    (hvm : dget sw "version_match" ≠ Option.none) :
    ((∀ r ∈ records, dget r "url" ≠ Option.none ∧ dget r "version" ≠ Option.none) →
       (update_config (mkApp [("switcher", .dict sw)] (fun _ => .success records))).err = Option.none
       ∧ (∀ u, (update_config (mkApp [("switcher", .dict sw)] (fun _ => .success records))).warnings.count (.switcherMalformed u) = 0)
       ∧ (∀ u, (update_config (mkApp [("switcher", .dict sw)] (fun _ => .success records))).warnings.count (.switcherUnreachable u) = 0))
    ∧ ((∃ r ∈ records, dget r "url" = Option.none ∨ dget r "version" = Option.none) →
       (update_config (mkApp [("switcher", .dict sw)] (fun _ => .success records))).err = Option.none
       ∧ (update_config (mkApp [("switcher", .dict sw)] (fun _ => .success records))).warnings.count (.switcherMalformed url) = 1) := by
  rcases hv : dget sw "version_match" with _ | vm
  · exact absurd hv hvm
  constructor
  · intro hall
    have hmu : records.any (fun r => (dget r "url").isNone) = false :=
      List.any_eq_false.mpr (fun r hr hn => (hall r hr).1 (Option.isNone_iff_eq_none.mp hn))
    have hmv : records.any (fun r => (dget r "version").isNone) = false :=
      List.any_eq_false.mpr (fun r hr hn => (hall r hr).2 (Option.isNone_iff_eq_none.mp hn))
    simp [update_config, mkApp, initSt, step_logo_text, step_footer_items, step_favicons,
          step_navigation, step_icon_links_check, step_permalinks, step_switcher,
          step_analytics, step_ablog, step_shortcuts, step_logo, shortcuts, hju, hv, hmu, hmv]
  · intro hex
    have hm : (records.any (fun r => (dget r "url").isNone)
        || records.any (fun r => (dget r "version").isNone)) = true := by
      obtain ⟨r, hr, hor⟩ := hex
      rcases hor with h | h
      · have hx : records.any (fun r => (dget r "url").isNone) = true :=
          List.any_eq_true.mpr ⟨r, hr, by simp [h]⟩
        simp [hx]
      · have hx : records.any (fun r => (dget r "version").isNone) = true :=
          List.any_eq_true.mpr ⟨r, hr, by simp [h]⟩
        simp [hx]
    simp [update_config, mkApp, initSt, step_logo_text, step_footer_items, step_favicons,
          step_navigation, step_icon_links_check, step_permalinks, step_switcher,
          step_analytics, step_ablog, step_shortcuts, step_logo, shortcuts, hju, hv, hm]

/-- Witness for C3: a well-formed one-record manifest, then a record
missing `version`. -/
theorem update_config_switcher_manifest_validation_witness :
    ((update_config (mkApp [("switcher", .dict [("json_url", .str "u"), ("version_match", .str "v")])]
        (fun _ => .success [[("url", .str "a"), ("version", .str "1")]]))).err = Option.none
      ∧ (update_config (mkApp [("switcher", .dict [("json_url", .str "u"), ("version_match", .str "v")])]
        (fun _ => .success [[("url", .str "a"), ("version", .str "1")]]))).warnings.count (.switcherMalformed "u") = 0)
    ∧ ((update_config (mkApp [("switcher", .dict [("json_url", .str "u"), ("version_match", .str "v")])]
        (fun _ => .success [[("url", .str "a")]]))).err = Option.none
      ∧ (update_config (mkApp [("switcher", .dict [("json_url", .str "u"), ("version_match", .str "v")])]
        (fun _ => .success [[("url", .str "a")]]))).warnings.count (.switcherMalformed "u") = 1) := by
  have hgood := (update_config_switcher_manifest_validation
    [("json_url", .str "u"), ("version_match", .str "v")] "u"
    [[("url", .str "a"), ("version", .str "1")]] rfl (by simp)).1
    (by
      intro r hr
      rw [List.mem_singleton] at hr
      subst hr
      exact ⟨by simp, by simp⟩)
  have hbad := (update_config_switcher_manifest_validation
    [("json_url", .str "u"), ("version_match", .str "v")] "u"
    [[("url", .str "a")]] rfl (by simp)).2
    ⟨[("url", .str "a")], by simp, Or.inr rfl⟩
  exact ⟨⟨hgood.1, hgood.2.1 "u"⟩, hbad⟩

/-- C4: when the manifest fetch fails with one of the caught exceptions
(connection, HTTP-status or retry errors on an `http`/`https` URL; a
missing file on a local path), `update_config` swallows the exception,
emits exactly one reachability warning, and finishes without error. -/
theorem update_config_switcher_unreachable_warns_once
    (sw : Dict) (url : String) (e : ReadErr)
    (hju : dget sw "json_url" = some (.str url))
    (hvm : dget sw "version_match" ≠ Option.none)
    (hcaught :
      ((urlScheme url = "http" ∨ urlScheme url = "https")
          ∧ (e = .connectionError ∨ e = .httpError ∨ e = .retryError))
      ∨ (¬(urlScheme url = "http" ∨ urlScheme url = "https") ∧ e = .fileNotFound)) :
    (update_config (mkApp [("switcher", .dict sw)] (fun _ => .failure e))).err = Option.none
    ∧ (update_config (mkApp [("switcher", .dict sw)] (fun _ => .failure e))).warnings.count
        (.switcherUnreachable url) = 1 := by
  rcases hv : dget sw "version_match" with _ | vm
  · exact absurd hv hvm
  rcases hcaught with ⟨hs, he⟩ | ⟨hs, he⟩
  · rcases hs with hs | hs <;> rcases he with he | he | he <;>
      simp [update_config, mkApp, initSt, step_logo_text, step_footer_items, step_favicons,
            step_navigation, step_icon_links_check, step_permalinks, step_switcher,
            step_analytics, step_ablog, step_shortcuts, step_logo, shortcuts, hju, hv, hs, he]
  · rw [not_or] at hs
    have h1 : (urlScheme url = "http") = False := by simp [hs.1]
    have h2 : (urlScheme url = "https") = False := by simp [hs.2]
    simp [update_config, mkApp, initSt, step_logo_text, step_footer_items, step_favicons,
          step_navigation, step_icon_links_check, step_permalinks, step_switcher,
          step_analytics, step_ablog, step_shortcuts, step_logo, shortcuts, hju, hv, h1, h2, he]

/-- Witness for C4: a connection error on an HTTPS manifest URL. -/
theorem update_config_switcher_unreachable_warns_once_witness :
    (update_config (mkApp [("switcher", .dict [("json_url", .str "https://e.x/v.json"),
        ("version_match", .str "v")])] (fun _ => .failure .connectionError))).err = Option.none
    ∧ (update_config (mkApp [("switcher", .dict [("json_url", .str "https://e.x/v.json"),
        ("version_match", .str "v")])] (fun _ => .failure .connectionError))).warnings.count
        (.switcherUnreachable "https://e.x/v.json") = 1 :=
  update_config_switcher_unreachable_warns_once
    [("json_url", .str "https://e.x/v.json"), ("version_match", .str "v")]
    "https://e.x/v.json" .connectionError rfl (by simp)
    (Or.inl ⟨Or.inr (by decide), Or.inl rfl⟩)

/-- C5: a present non-list `icon_links` option makes `update_config` raise
an `ExtensionError` naming the type of the offending value. -/
theorem update_config_icon_links_non_list_raises
    (v : Value) (fetch : String → FetchResult) (hv : isList v = false) :
    (update_config (mkApp [("icon_links", v)] fetch)).err = some (.extensionError (typeName v)) := by
  simp [update_config, mkApp, initSt, step_logo_text, step_footer_items, step_favicons,
        step_navigation, step_icon_links_check, step_permalinks, step_switcher,
        step_analytics, step_ablog, step_shortcuts, step_logo, shortcuts, hv]

/-- Witness for C5 at `icon_links="x"`. -/
theorem update_config_icon_links_non_list_raises_witness :
    (update_config (mkApp [("icon_links", .str "x")] (fun _ => .failure .otherError))).err
      = some (.extensionError "str") :=
  update_config_icon_links_non_list_raises (.str "x") (fun _ => .failure .otherError) rfl

/-- C8: every truthy icon-link shortcut option contributes its generated
entry at the front of `icon_links`; all shortcut-derived entries precede
the user-provided entries, and a shortcut later in the fixed order
(twitter, bitbucket, gitlab, github) lands earlier in the final list. -/
theorem update_config_shortcut_icon_links_order
    (tw bb gl gh : Value) (xs : List Value) (fetch : String → FetchResult) :
    dget (update_config (mkApp
        [("twitter_url", tw), ("bitbucket_url", bb), ("gitlab_url", gl),
         ("github_url", gh), ("icon_links", .list xs)] fetch)).opts "icon_links"
    = some (.list (
        (if truthy gh then [iconEntry gh "fa-brands fa-square-github" "GitHub"] else [])
        ++ (if truthy gl then [iconEntry gl "fa-brands fa-square-gitlab" "GitLab"] else [])
        ++ (if truthy bb then [iconEntry bb "fa-brands fa-bitbucket" "Bitbucket"] else [])
        ++ (if truthy tw then [iconEntry tw "fa-brands fa-square-twitter" "Twitter"] else [])
        ++ xs)) := by
  cases htw : truthy tw <;> cases hbb : truthy bb <;> cases hgl : truthy gl <;>
    cases hgh : truthy gh <;>
    simp [update_config, mkApp, initSt, step_logo_text, step_footer_items, step_favicons,
          step_navigation, step_icon_links_check, step_permalinks, step_switcher,
          step_analytics, step_ablog, step_shortcuts, step_logo, shortcuts,
          htw, hbb, hgl, hgh]

/-- C9: after a clean `update_config` run the `logo` option is always a
dict; a missing, `None` or empty-string logo is replaced by an empty dict,
and a truthy non-dict logo raises a `ValueError` naming its type. -/
theorem update_config_logo_always_dict :
    (∀ app : App, (update_config app).err = Option.none →
        isDict (dgetD (update_config app).opts "logo" .none) = true)
    ∧ (∀ (fetch : String → FetchResult) (v : Value), (v = Value.none ∨ v = .str "") →
        (update_config (mkApp [("logo", v)] fetch)).err = Option.none
        ∧ dget (update_config (mkApp [("logo", v)] fetch)).opts "logo" = some (.dict []))
    ∧ (∀ fetch : String → FetchResult,
        (update_config (mkApp [] fetch)).err = Option.none
        ∧ dget (update_config (mkApp [] fetch)).opts "logo" = some (.dict []))
    ∧ (∀ (fetch : String → FetchResult) (v : Value), truthy v = true → isDict v = false →
        (update_config (mkApp [("logo", v)] fetch)).err = some (.valueError (typeName v))) := by
  refine ⟨?_, ?_, ?_, ?_⟩
  · intro app herr
    unfold update_config at herr ⊢
    generalize step_shortcuts (step_ablog app (step_analytics (step_switcher app
      (step_permalinks app (step_icon_links_check (step_navigation (step_favicons
        (step_footer_items (step_logo_text (initSt app)))))))))) = st at herr ⊢
    rcases he : st.err with _ | e
    · rcases step_logo_cases st he with ⟨es, hes, _⟩ | ⟨s, hs⟩
      · simp [hes]
      · rw [hs] at herr
        exact absurd herr (by simp)
    · rw [step_logo_of_err st e he] at herr
      rw [he] at herr
      exact absurd herr (by simp)
  · intro fetch v hfalsy
    rcases hfalsy with rfl | rfl <;>
      constructor <;>
        simp [update_config, mkApp, initSt, step_logo_text, step_footer_items, step_favicons,
              step_navigation, step_icon_links_check, step_permalinks, step_switcher,
              step_analytics, step_ablog, step_shortcuts, step_logo, shortcuts]
  · intro fetch
    constructor <;>
      simp [update_config, mkApp, initSt, step_logo_text, step_footer_items, step_favicons,
            step_navigation, step_icon_links_check, step_permalinks, step_switcher,
            step_analytics, step_ablog, step_shortcuts, step_logo, shortcuts]
  · intro fetch v ht hd
    rcases v with _ | b | n | s | xs | es
    · simp at ht
    · simp at ht
      subst ht
      simp [update_config, mkApp, initSt, step_logo_text, step_footer_items, step_favicons,
            step_navigation, step_icon_links_check, step_permalinks, step_switcher,
            step_analytics, step_ablog, step_shortcuts, step_logo, shortcuts, typeName]
    · simp at ht
      simp [update_config, mkApp, initSt, step_logo_text, step_footer_items, step_favicons,
            step_navigation, step_icon_links_check, step_permalinks, step_switcher,
            step_analytics, step_ablog, step_shortcuts, step_logo, shortcuts, typeName, ht]
    · simp at ht
      simp [update_config, mkApp, initSt, step_logo_text, step_footer_items, step_favicons,
            step_navigation, step_icon_links_check, step_permalinks, step_switcher,
            step_analytics, step_ablog, step_shortcuts, step_logo, shortcuts, typeName, ht]
    · simp at ht
      simp [update_config, mkApp, initSt, step_logo_text, step_footer_items, step_favicons,
            step_navigation, step_icon_links_check, step_permalinks, step_switcher,
            step_analytics, step_ablog, step_shortcuts, step_logo, shortcuts, typeName, ht]
    · simp at hd

/-- Witness for C9: a clean run with no options, and a string logo. -/
theorem update_config_logo_always_dict_witness :
    isDict (dgetD (update_config (mkApp [] (fun _ => .failure .otherError))).opts "logo" .none) = true
    ∧ (update_config (mkApp [("logo", .str "logo.png")] (fun _ => .failure .otherError))).err
        = some (.valueError "str") :=
  ⟨update_config_logo_always_dict.1 (mkApp [] (fun _ => .failure .otherError)) rfl,
   update_config_logo_always_dict.2.2.2 (fun _ => .failure .otherError) (.str "logo.png")
     (by decide) rfl⟩

/-- C10: with a falsy `check_switcher` or a non-dict `switcher`,
`update_config` performs no switcher validation: the manifest is never
fetched, no switcher warning is emitted, and no error is raised whatever
the switcher value holds. -/
theorem update_config_switcher_validation_skipped
    (sw cs : Value) (fetch : String → FetchResult)
    (h : isDict sw = false ∨ truthy cs = false) :
    (update_config (mkApp [("switcher", sw), ("check_switcher", cs)] fetch)).didFetch = false
    ∧ (update_config (mkApp [("switcher", sw), ("check_switcher", cs)] fetch)).err = Option.none
    ∧ (∀ u, (update_config (mkApp [("switcher", sw), ("check_switcher", cs)] fetch)).warnings.count (.switcherUnreachable u) = 0)
    ∧ (∀ u, (update_config (mkApp [("switcher", sw), ("check_switcher", cs)] fetch)).warnings.count (.switcherMalformed u) = 0) := by
  rcases h with h | h <;>
    simp [update_config, mkApp, initSt, step_logo_text, step_footer_items, step_favicons,
          step_navigation, step_icon_links_check, step_permalinks, step_switcher,
          step_analytics, step_ablog, step_shortcuts, step_logo, shortcuts, h]

/-- Witness for C10: `check_switcher=False` with a malformed dict switcher. -/
theorem update_config_switcher_validation_skipped_witness :
    (update_config (mkApp [("switcher", .dict [("bogus", .int 1)]), ("check_switcher", .bool false)]
        (fun _ => .failure .otherError))).didFetch = false
    ∧ (update_config (mkApp [("switcher", .dict [("bogus", .int 1)]), ("check_switcher", .bool false)]
        (fun _ => .failure .otherError))).err = Option.none :=
  ⟨(update_config_switcher_validation_skipped (.dict [("bogus", .int 1)]) (.bool false)
      (fun _ => .failure .otherError) (Or.inr rfl)).1,
   (update_config_switcher_validation_skipped (.dict [("bogus", .int 1)]) (.bool false)
      (fun _ => .failure .otherError) (Or.inr rfl)).2.1⟩

/-- C6: a template section holding a non-empty comma-separated string is
replaced by the ordered list of its comma-separated entries, each stripped
of surrounding whitespace, with `.html` appended to entries lacking an
extension and entries with an extension left unchanged (stated under the
assumption that no entry is pruned by the separate emptiness filter). -/
theorem update_and_remove_templates_splits_sections
    (pa : PageApp) (sect s : String)
    (hsect : sect ∈ template_sections)
    (hs : s ≠ "")
    (hrender : ∀ t c, (pyStrip (pa.render t c).toList).isEmpty = false) :
    dget (update_and_remove_templates pa [(sect, .str s)]).ctx sect
      = some (.list ((((pySplit ',' s.toList).map (fun ii => String.mk (pyStrip ii))).map
          (fun t => if splitextExt t = "" then t ++ ".html" else t)).map Value.str)) := by
  have hfil := filter_keepTemplate pa hrender
  fin_cases hsect <;>
    simp [update_and_remove_templates, template_sections, processSection,
          step_css_dedup, step_favicons_ctx, step_page_js, step_theme_version,
          strOf, hs, hfil]

/-- Witness for C6 on `sidebars = " a , b.html ,c"`. -/
theorem update_and_remove_templates_splits_sections_witness :
    dget (update_and_remove_templates ⟨fun _ _ => "x"⟩ [("sidebars", .str " a , b.html ,c")]).ctx "sidebars"
      = some (.list ((((pySplit ',' (" a , b.html ,c").toList).map (fun ii => String.mk (pyStrip ii))).map
          (fun t => if splitextExt t = "" then t ++ ".html" else t)).map Value.str)) :=
  update_and_remove_templates_splits_sections ⟨fun _ _ => "x"⟩ "sidebars" " a , b.html ,c"
    (by decide) (by decide) (fun t c => rfl)

/-- C7: when `css_files` contains the theme stylesheet entry,
`update_and_remove_templates` removes exactly its first occurrence and
keeps every other element in order; without that entry `css_files` is left
unchanged. -/
theorem update_and_remove_templates_css_dedup (pa : PageApp) (xs : List Value) :
    ((∀ l1 l2, xs = l1 ++ .str theme_css_name :: l2 →
        (∀ y ∈ l1, vIsStr theme_css_name y = false) →
        dget (update_and_remove_templates pa [("css_files", .list xs)]).ctx "css_files"
          = some (.list (l1 ++ l2)))
    ∧ (xs.any (vIsStr theme_css_name) = false →
        dget (update_and_remove_templates pa [("css_files", .list xs)]).ctx "css_files"
          = some (.list xs))) := by
  constructor
  · intro l1 l2 hxs hl1
    subst hxs
    have hany : (l1 ++ .str theme_css_name :: l2).any (vIsStr theme_css_name) = true :=
      List.any_eq_true.mpr ⟨.str theme_css_name, by simp, by simp [vIsStr]⟩
    have hrem := removeFirstStr_append theme_css_name l1 l2 hl1
    simp [update_and_remove_templates, template_sections, processSection,
          step_css_dedup, step_favicons_ctx, step_page_js, step_theme_version,
          hany, hrem]
  · intro hany
    simp [update_and_remove_templates, template_sections, processSection,
          step_css_dedup, step_favicons_ctx, step_page_js, step_theme_version,
          hany]

/-- Witness for C7: one duplicate between two other stylesheets, and a
list without the theme stylesheet. -/
theorem update_and_remove_templates_css_dedup_witness :
    dget (update_and_remove_templates ⟨fun _ _ => "x"⟩
        [("css_files", .list [.str "x.css", .str theme_css_name, .str "y.css"])]).ctx "css_files"
      = some (.list [.str "x.css", .str "y.css"])
    ∧ dget (update_and_remove_templates ⟨fun _ _ => "x"⟩
        [("css_files", .list [.str "a.css"])]).ctx "css_files"
      = some (.list [.str "a.css"]) :=
  ⟨(update_and_remove_templates_css_dedup ⟨fun _ _ => "x"⟩
      [.str "x.css", .str theme_css_name, .str "y.css"]).1
      [.str "x.css"] [.str "y.css"] rfl
      (by
        intro y hy
        rw [List.mem_singleton] at hy
        subst hy
        rfl),
   (update_and_remove_templates_css_dedup ⟨fun _ _ => "x"⟩ [.str "a.css"]).2 rfl⟩

end PST
